import Mathlib

/-!
Verification of the kube-vip IPVS load-balancer component
(`pkg/loadbalancer/ipvs.go`).

The Go file defines `NewIPVSLB`, `RemoveIPVSLB`, `AddBackend` and
`RemoveBackend` on top of the external `github.com/cloudflare/ipvs`
client.  We embed the Go control flow faithfully: the external client is
an injected collaborator (a state machine), errors are Go error strings
(`none` = nil error, `some e` = an error whose `Error()` is `e`), and the
"already exists" test is the literal `strings.Contains(err.Error(),
"file exists")` of the source.

Two instantiations of the collaborator are used:
* `scriptClient` — an oracle answering calls from a prearranged list of
  responses while recording the calls made, used to settle claims about
  control flow (which calls are made, which errors are surfaced);
* `kernelClient` — the forwarding-table semantics, modelled from the
  spec's description of the ForwardingTableClient (create/remove of
  service and destination descriptors keyed by family/protocol/address/
  port resp. address/port, with "already exists" / "not found" error
  kinds), used to settle claims about the resulting table state.
-/

namespace KubeVip

/-- Address family of an IPVS descriptor (`ipvs.INET` / `ipvs.INET6`). -/
inductive AddressFamily
  | inet
  | inet6
deriving DecidableEq

/-- Transport protocol of an IPVS service (`ipvs.TCP` / `ipvs.UDP`). -/
inductive Protocol
  | tcp
  | udp
deriving DecidableEq

/-- Forwarding method of an IPVS destination.  The numbering follows the
kernel IPVS connection-flag constants, so the Go zero value of the
library's forward-type (what an omitted `FwdMethod` field gets) is
`masquerade`, and `local` (the value `ipvs.Local` written by
`AddBackend`) is distinct from it. -/
inductive ForwardType
  | masquerade
  | localDelivery
  | tunnel
  | directRoute
  | bypass
deriving DecidableEq

/-- The Go zero value of `ForwardType` (an omitted struct field). -/
def ForwardType.zero : ForwardType := .masquerade

/-- A parsed IP address, the non-nil result of Go's `net.ParseIP`
(string parsing itself is the standard library, external to this
component): either an IPv4 address (`To4()` succeeds) or an IPv6
address, as raw bytes. -/
inductive NetIP
  | v4 (a b c d : Nat)
  | v6 (bytes : List Nat)
deriving DecidableEq

/-- The address family a parsed Go IP belongs to (IPv4 when `To4()`
succeeds, IPv6 otherwise). -/
def NetIP.family : NetIP → AddressFamily
  | .v4 _ _ _ _ => .inet
  | .v6 _ => .inet6

/-- Result of `net.ParseIP`: `none` is Go's nil (unparseable input). -/
abbrev ParsedIP : Type := Option NetIP

/-- Modelled from the library's `ipvs.NewIP`: pack a (possibly nil)
`net.IP` into the fixed 16-byte IPVS address value.  A nil input copies
nothing and leaves the zero value, so no failure or panic arises from an
unparseable address string. -/
def NewIP : ParsedIP → List Nat
  | none => List.replicate 16 0
  | some (.v4 a b c d) => [a, b, c, d] ++ List.replicate 12 0
  | some (.v6 bytes) => bytes.take 16 ++ List.replicate (16 - bytes.length) 0

/-- Go's conversion `uint16(port)` of a (64-bit) `int` argument: the low
16 bits, i.e. the argument modulo 2^16 (also for negative arguments,
since `Int.emod` with a positive modulus is non-negative, matching the
two's-complement truncation). -/
def uint16 (port : Int) : Nat := (port % 65536).toNat

/-- Whether the first character list is a prefix of the second. -/
def charsPre : List Char → List Char → Bool
  | [], _ => true
  | _ :: _, [] => false
  | a :: as, b :: bs => a == b && charsPre as bs

/-- Whether the first character list occurs contiguously in the second. -/
def charsIn (sub : List Char) : List Char → Bool
  | [] => charsPre sub []
  | b :: bs => charsPre sub (b :: bs) || charsIn sub bs

/-- Go's `strings.Contains s sub`: `sub` occurs as a substring of `s`. -/
def strContains (s sub : String) : Bool := charsIn sub.toList s.toList

/-- `ipvs.Service`: the service descriptor (the fields `ipvs.go` sets). -/
structure Service where
  family : AddressFamily
  protocol : Protocol
  port : Nat
  address : List Nat
  scheduler : String
deriving DecidableEq

/-- `ipvs.Destination`: the backend descriptor (the fields `ipvs.go`
sets; `fwdMethod` is the Go zero value when the source omits it). -/
structure Destination where
  address : List Nat
  port : Nat
  family : AddressFamily
  weight : Nat
  fwdMethod : ForwardType
deriving DecidableEq

/-- `const ROUNDROBIN = "rr"` from `ipvs.go`. -/
def ROUNDROBIN : String := "rr"

/-- The service descriptor literal built inside `NewIPVSLB`:
`Family: ipvs.INET, Protocol: ipvs.TCP, Port: uint16(port),
Address: ipvs.NewIP(net.ParseIP(address)), Scheduler: ROUNDROBIN`. -/
def mkService (address : ParsedIP) (port : Int) : Service :=
  { family := .inet
    protocol := .tcp
    port := uint16 port
    address := NewIP address
    scheduler := ROUNDROBIN }

/-- The destination literal built inside `AddBackend`:
`Address, Port, Family: ipvs.INET, Weight: 1, FwdMethod: ipvs.Local`. -/
def mkAddDest (address : ParsedIP) (port : Int) : Destination :=
  { address := NewIP address
    port := uint16 port
    family := .inet
    weight := 1
    fwdMethod := .localDelivery }

/-- The destination literal built inside `RemoveBackend`:
`Address, Port, Family: ipvs.INET, Weight: 1` — `FwdMethod` is omitted
in the source, hence the Go zero value. -/
def mkRemoveDest (address : ParsedIP) (port : Int) : Destination :=
  { address := NewIP address
    port := uint16 port
    family := .inet
    weight := 1
    fwdMethod := ForwardType.zero }

/-- The injected external collaborator (`ipvs.Client`): a state machine
over client state `σ`, each operation returning the next state and a Go
error value (`none` = nil). -/
structure IpvsClient (σ : Type) where
  createService : σ → Service → σ × Option String
  removeService : σ → Service → σ × Option String
  createDestination : σ → Service → Destination → σ × Option String
  removeDestination : σ → Service → Destination → σ × Option String

/-- The `IPVSLoadBalancer` handle (its `client` field is the injected
collaborator, carried separately in this embedding). -/
structure IPVSLoadBalancer where
  loadBalancerService : Service
  Port : Int
deriving DecidableEq

/-- `NewIPVSLB(address, port)` from `ipvs.go`.  `newClientErr` is the
error result of `ipvs.New()` (client construction); `address` is the
result of `net.ParseIP(address)`.  On a first `CreateService` failure
whose error text contains "file exists" the stale service is removed and
creation retried once; any other failure is returned at once. -/
def NewIPVSLB {σ : Type} (c : IpvsClient σ) (newClientErr : Option String)
    (st : σ) (address : ParsedIP) (port : Int) :
    σ × Except String IPVSLoadBalancer :=
  match newClientErr with
  | some e => (st, .error ("error creating IPVS client: " ++ e))
  | none =>
    let svc := mkService address port
    let r1 := c.createService st svc
    match r1.2 with
    | some e =>
      if strContains e "file exists" then
        -- log.Warnf: load balancer already exists, remove and re-create
        let r2 := c.removeService r1.1 svc
        match r2.2 with
        | some e2 => (r2.1, .error ("error re-creating IPVS service: " ++ e2))
        | none =>
          let r3 := c.createService r2.1 svc
          match r3.2 with
          | some e3 => (r3.1, .error ("error re-creating IPVS service: " ++ e3))
          | none => (r3.1, .ok { loadBalancerService := svc, Port := port })
      else
        (r1.1, .error ("error creating IPVS service: " ++ e))
    | none => (r1.1, .ok { loadBalancerService := svc, Port := port })

/-- `RemoveIPVSLB()` from `ipvs.go`: remove the owned service, wrapping
any failure. -/
def RemoveIPVSLB {σ : Type} (c : IpvsClient σ) (st : σ)
    (lb : IPVSLoadBalancer) : σ × Except String Unit :=
  let r := c.removeService st lb.loadBalancerService
  match r.2 with
  | some e => (r.1, .error ("error removing existing IPVS service: " ++ e))
  | none => (r.1, .ok ())

/-- `AddBackend(address, port)` from `ipvs.go`: create the destination;
an error whose text contains "file exists" is swallowed (the node
watcher may re-announce a backend), any other error is wrapped and
returned. -/
def AddBackend {σ : Type} (c : IpvsClient σ) (st : σ)
    (lb : IPVSLoadBalancer) (address : ParsedIP) (port : Int) :
    σ × Except String Unit :=
  let dst := mkAddDest address port
  let r := c.createDestination st lb.loadBalancerService dst
  match r.2 with
  | some e =>
    if strContains e "file exists" then (r.1, .ok ())
    else (r.1, .error ("error creating backend: " ++ e))
  | none => (r.1, .ok ())

/-- `RemoveBackend(address, port)` from `ipvs.go`: remove the
destination; every failure is wrapped and returned. -/
def RemoveBackend {σ : Type} (c : IpvsClient σ) (st : σ)
    (lb : IPVSLoadBalancer) (address : ParsedIP) (port : Int) :
    σ × Except String Unit :=
  let dst := mkRemoveDest address port
  let r := c.removeDestination st lb.loadBalancerService dst
  match r.2 with
  | some e => (r.1, .error ("error removing backend: " ++ e))
  | none => (r.1, .ok ())

/-! ### Scripted client

An oracle collaborator: it answers each call with the next response of a
prearranged script (running off the end answers nil) and records every
call it receives, so theorems can speak about which calls the component
made and in which order. -/

/-- One call made to the IPVS client. -/
inductive Call
  | createService (s : Service)
  | removeService (s : Service)
  | createDestination (s : Service) (d : Destination)
  | removeDestination (s : Service) (d : Destination)
deriving DecidableEq

/-- State of the scripted client: remaining responses and the log of
calls received so far. -/
structure ScriptState where
  script : List (Option String)
  callLog : List Call
deriving DecidableEq

/-- Answer one call: consume the next scripted response and log the
call. -/
def scriptStep (st : ScriptState) (c : Call) : ScriptState × Option String :=
  match st.script with
  | [] => ({ script := [], callLog := st.callLog ++ [c] }, none)
  | r :: rest => ({ script := rest, callLog := st.callLog ++ [c] }, r)

/-- The scripted client. -/
def scriptClient : IpvsClient ScriptState where
  createService st s := scriptStep st (.createService s)
  removeService st s := scriptStep st (.removeService s)
  createDestination st s d := scriptStep st (.createDestination s d)
  removeDestination st s d := scriptStep st (.removeDestination s d)

/-- The number of `CreateService` calls in a call log. -/
def countCreateService (log : List Call) : Nat :=
  log.countP (fun c => match c with | .createService _ => true | _ => false)

/-! ### Kernel forwarding-table client

Modelled from the spec: the ForwardingTableClient semantics of §6 —
`CreateService`/`CreateDestination` fail with a recognizable "already
exists" error kind when a descriptor with the same key is present
(the netlink `EEXIST` text is "file exists"), `RemoveService`/
`RemoveDestination` fail with a "not found" kind (`ENOENT`, "no such
file or directory") when it is absent; services are keyed by
(family, protocol, address, port) and destinations within a service by
(address, port). -/

/-- The identifying key of a service descriptor. -/
def svcKey (s : Service) : AddressFamily × Protocol × List Nat × Nat :=
  (s.family, s.protocol, s.address, s.port)

/-- The identifying key of a destination within its service. -/
def destKey (d : Destination) : List Nat × Nat := (d.address, d.port)

/-- The kernel forwarding table: registered services, each with its list
of destinations. -/
abbrev KernelState : Type := List (Service × List Destination)

/-- Boolean key match for a table entry. -/
def entryMatches (s : Service) (e : Service × List Destination) : Bool :=
  decide (svcKey e.1 = svcKey s)

/-- Boolean key match for a destination. -/
def destMatches (d d0 : Destination) : Bool :=
  decide (destKey d0 = destKey d)

/-- Modelled from the spec: `CreateService` — fails with "file exists"
when a service with the same key is registered, otherwise registers the
service with zero destinations. -/
def kCreateService (st : KernelState) (s : Service) :
    KernelState × Option String :=
  if st.any (entryMatches s) then (st, some "file exists")
  else (st ++ [(s, [])], none)

/-- Modelled from the spec: `RemoveService` — removes the service with
the given key (and implicitly its destinations), failing with "not
found" when absent. -/
def kRemoveService (st : KernelState) (s : Service) :
    KernelState × Option String :=
  if st.any (entryMatches s) then
    (st.filter (fun e => !entryMatches s e), none)
  else (st, some "no such file or directory")

/-- Replace the destination list of every entry with the given service
key. -/
def setDests (st : KernelState) (s : Service) (ds : List Destination) :
    KernelState :=
  st.map (fun e => if entryMatches s e then (e.1, ds) else e)

/-- Modelled from the spec: `CreateDestination` — fails with "not found"
when the service is absent, with "file exists" when a destination with
the same (address, port) key is already attached, and otherwise attaches
the destination. -/
def kCreateDestination (st : KernelState) (s : Service) (d : Destination) :
    KernelState × Option String :=
  match st.find? (entryMatches s) with
  | none => (st, some "no such file or directory")
  | some e =>
    if e.2.any (destMatches d) then (st, some "file exists")
    else (setDests st s (e.2 ++ [d]), none)

/-- Modelled from the spec: `RemoveDestination` — fails with "not found"
when the service or the destination key is absent, and otherwise detaches
the destination with that (address, port) key. -/
def kRemoveDestination (st : KernelState) (s : Service) (d : Destination) :
    KernelState × Option String :=
  match st.find? (entryMatches s) with
  | none => (st, some "no such file or directory")
  | some e =>
    if e.2.any (destMatches d) then
      (setDests st s (e.2.filter (fun d0 => !destMatches d d0)), none)
    else (st, some "no such file or directory")

/-- The forwarding-table collaborator. -/
def kernelClient : IpvsClient KernelState where
  createService := kCreateService
  removeService := kRemoveService
  createDestination := kCreateDestination
  removeDestination := kRemoveDestination

/-- Whether the table holds a destination with the key of `d` under the
service with the key of `s` (looking at the first matching entry, which
is unique in any reachable table). -/
def hasDest (st : KernelState) (s : Service) (d : Destination) : Bool :=
  match st.find? (entryMatches s) with
  | none => false
  | some e => e.2.any (destMatches d)

/-! ### Helper lemmas -/

theorem any_eq_false_filter_eq_nil {α : Type} (p : α → Bool) (l : List α)
    (h : l.any p = false) : l.filter p = [] := by
  rw [List.filter_eq_nil_iff]
  intro a ha hpa
  rw [Bool.eq_false_iff] at h
  exact h (List.any_eq_true.mpr ⟨a, ha, hpa⟩)

theorem any_filter_not_eq_false {α : Type} (p : α → Bool) (l : List α) :
    (l.filter (fun a => !p a)).any p = false := by
  rw [Bool.eq_false_iff]
  intro hany
  obtain ⟨a, ha, hpa⟩ := List.any_eq_true.mp hany
  obtain ⟨-, hnp⟩ := List.mem_filter.mp ha
  simp [hpa] at hnp

theorem countP_eq_zero_of_any_eq_false {α : Type} (p : α → Bool) (l : List α)
    (h : l.any p = false) : l.countP p = 0 := by
  rw [List.countP_eq_zero]
  intro a ha hpa
  rw [Bool.eq_false_iff] at h
  exact h (List.any_eq_true.mpr ⟨a, ha, hpa⟩)

theorem countP_eq_one_of_any_of_le_one {α : Type} (p : α → Bool) (l : List α)
    (hany : l.any p = true) (hle : l.countP p ≤ 1) : l.countP p = 1 := by
  refine Nat.le_antisymm hle ?_
  obtain ⟨a, ha, hpa⟩ := List.any_eq_true.mp hany
  exact List.countP_pos_iff.mpr ⟨a, ha, hpa⟩

theorem entryMatches_pair (s : Service) (e : Service × List Destination)
    (ds : List Destination) : entryMatches s (e.1, ds) = entryMatches s e := rfl

theorem entryMatches_self (s : Service) (ds : List Destination) :
    entryMatches s (s, ds) = true := by
  simp [entryMatches]

theorem destMatches_self (d : Destination) : destMatches d d = true := by
  simp [destMatches]

theorem destKey_remove_eq_add (address : ParsedIP) (port : Int) :
    destKey (mkRemoveDest address port) = destKey (mkAddDest address port) := rfl

theorem destMatches_remove_eq_add (address : ParsedIP) (port : Int)
    (d0 : Destination) :
    destMatches (mkRemoveDest address port) d0 =
      destMatches (mkAddDest address port) d0 := rfl

theorem find?_setDests (st : KernelState) (s : Service) (ds : List Destination) :
    (setDests st s ds).find? (entryMatches s) =
      (st.find? (entryMatches s)).map (fun e => (e.1, ds)) := by
  induction st with
  | nil => rfl
  | cons e rest ih =>
    by_cases h : entryMatches s e
    · rw [setDests, List.map_cons, if_pos h]
      rw [List.find?_cons_of_pos _ ((entryMatches_pair s e ds).trans h),
        List.find?_cons_of_pos _ h]
      rfl
    · rw [Bool.not_eq_true] at h
      rw [setDests, List.map_cons, if_neg (by simp [h])]
      rw [List.find?_cons_of_neg _ (by simp [h]), List.find?_cons_of_neg _ (by simp [h])]
      exact ih

theorem strContains_fileExists_self :
    strContains "file exists" "file exists" = true := by decide

theorem strContains_notFound_fileExists :
    strContains "no such file or directory" "file exists" = false := by decide

theorem filter_not_eq_self_of_any_eq_false {α : Type} (p : α → Bool) (l : List α)
    (h : l.any p = false) : l.filter (fun a => !p a) = l := by
  rw [List.filter_eq_self]
  intro a ha
  cases hpa : p a
  · rfl
  · rw [Bool.eq_false_iff] at h
    exact absurd (List.any_eq_true.mpr ⟨a, ha, hpa⟩) h

theorem kCreateService_exists (st : KernelState) (s : Service)
    (h : st.any (entryMatches s) = true) :
    kCreateService st s = (st, some "file exists") := by
  simp [kCreateService, h]

theorem kCreateService_fresh (st : KernelState) (s : Service)
    (h : st.any (entryMatches s) = false) :
    kCreateService st s = (st ++ [(s, [])], none) := by
  simp [kCreateService, h]

theorem kRemoveService_found (st : KernelState) (s : Service)
    (h : st.any (entryMatches s) = true) :
    kRemoveService st s = (st.filter (fun e => !entryMatches s e), none) := by
  simp [kRemoveService, h]

/-- Under the forwarding-table model, construction always succeeds: when
a stale entry with the same key exists it is removed first (the filter),
and a single fresh entry with zero destinations is appended. -/
theorem newIPVSLB_kernel (st : KernelState) (address : ParsedIP) (port : Int) :
    NewIPVSLB kernelClient none st address port =
      (st.filter (fun e => !entryMatches (mkService address port) e) ++
         [(mkService address port, [])],
       .ok { loadBalancerService := mkService address port, Port := port }) := by
  by_cases h : st.any (entryMatches (mkService address port))
  · simp only [NewIPVSLB, kernelClient, kCreateService_exists st _ h,
      strContains_fileExists_self, if_true, kRemoveService_found st _ h,
      kCreateService_fresh _ _ (any_filter_not_eq_false _ st)]
  · rw [Bool.not_eq_true] at h
    simp only [NewIPVSLB, kernelClient, kCreateService_fresh st _ h,
      filter_not_eq_self_of_any_eq_false _ st h]

theorem addBackend_kernel_present (st : KernelState) (lb : IPVSLoadBalancer)
    (address : ParsedIP) (port : Int) (entry : Service × List Destination)
    (h : st.find? (entryMatches lb.loadBalancerService) = some entry)
    (hd : entry.2.any (destMatches (mkAddDest address port)) = true) :
    AddBackend kernelClient st lb address port = (st, .ok ()) := by
  simp only [AddBackend, kernelClient, kCreateDestination, h, hd, if_true,
    strContains_fileExists_self]

theorem addBackend_kernel_absent (st : KernelState) (lb : IPVSLoadBalancer)
    (address : ParsedIP) (port : Int) (entry : Service × List Destination)
    (h : st.find? (entryMatches lb.loadBalancerService) = some entry)
    (hd : entry.2.any (destMatches (mkAddDest address port)) = false) :
    AddBackend kernelClient st lb address port =
      (setDests st lb.loadBalancerService (entry.2 ++ [mkAddDest address port]),
       .ok ()) := by
  simp only [AddBackend, kernelClient, kCreateDestination, h, hd,
    Bool.false_eq_true, if_false]

theorem removeBackend_kernel_present (st : KernelState) (lb : IPVSLoadBalancer)
    (address : ParsedIP) (port : Int) (entry : Service × List Destination)
    (h : st.find? (entryMatches lb.loadBalancerService) = some entry)
    (hd : entry.2.any (destMatches (mkRemoveDest address port)) = true) :
    RemoveBackend kernelClient st lb address port =
      (setDests st lb.loadBalancerService
         (entry.2.filter (fun d0 => !destMatches (mkRemoveDest address port) d0)),
       .ok ()) := by
  simp only [RemoveBackend, kernelClient, kRemoveDestination, h, hd, if_true]

theorem removeBackend_kernel_absent (st : KernelState) (lb : IPVSLoadBalancer)
    (address : ParsedIP) (port : Int)
    (hd : hasDest st lb.loadBalancerService (mkRemoveDest address port) = false) :
    RemoveBackend kernelClient st lb address port =
      (st, .error ("error removing backend: " ++ "no such file or directory")) := by
  unfold hasDest at hd
  cases h : st.find? (entryMatches lb.loadBalancerService) with
  | none => simp only [RemoveBackend, kernelClient, kRemoveDestination, h]
  | some entry =>
    rw [h] at hd
    simp only at hd
    simp only [RemoveBackend, kernelClient, kRemoveDestination, h, hd,
      Bool.false_eq_true, if_false]

/-- Any successfully constructed handle carries exactly the service
descriptor literal of the source and the given port, whatever the
client's behavior was. -/
theorem newIPVSLB_ok_handle {σ : Type} (c : IpvsClient σ) (ne : Option String)
    (st : σ) (address : ParsedIP) (port : Int) (lb : IPVSLoadBalancer)
    (h : (NewIPVSLB c ne st address port).2 = .ok lb) :
    lb = { loadBalancerService := mkService address port, Port := port } := by
  unfold NewIPVSLB at h
  cases ne with
  | some e => simp at h
  | none =>
    simp only at h
    split at h
    · split at h
      · split at h
        · simp at h
        · split at h
          · simp at h
          · simp at h
            exact h.symm
      · simp at h
    · simp at h
      exact h.symm

/-! ### Concrete sample inputs (shared by witnesses and counterexamples) -/

/-- A sample virtual IPv4 address (a parsed `10.0.0.1`). -/
def addr0 : ParsedIP := some (.v4 10 0 0 1)

/-- A sample backend IPv4 address (a parsed `10.0.0.10`). -/
def bk1 : ParsedIP := some (.v4 10 0 0 10)

/-- A sample parsed IPv6 address (`::1`). -/
def ip6sample : NetIP := .v6 [0, 0, 0, 0, 0, 0, 0, 0, 0, 0, 0, 0, 0, 0, 0, 1]

/-- The sample service descriptor at `addr0:6443`. -/
def svc0 : Service := mkService addr0 6443

/-- The sample load-balancer handle owning `svc0`. -/
def lb0 : IPVSLoadBalancer := { loadBalancerService := svc0, Port := 6443 }

instance {ε α : Type} [DecidableEq ε] [DecidableEq α] :
    DecidableEq (Except ε α) := fun a b =>
  match a, b with
  | .error x, .error y =>
    if h : x = y then .isTrue (by rw [h]) else .isFalse (by simp [h])
  | .error _, .ok _ => .isFalse (by simp)
  | .ok _, .error _ => .isFalse (by simp)
  | .ok x, .ok y =>
    if h : x = y then .isTrue (by rw [h]) else .isFalse (by simp [h])

/-! ### Claims -/

/-- C1 counterexample: with the first `CreateService` answered by the
"file exists" error and the subsequent `RemoveService` failing
("operation not permitted"), `NewIPVSLB` makes no second `CreateService`
call at all — creation is *not* retried (the call log holds exactly one
`CreateService`) — and an error is returned; the claim's "removes the
stale service descriptor and retries creation exactly once" fails on
this trace. -/
theorem C1_counterexample :
    countCreateService
        ((NewIPVSLB scriptClient none
            { script := [some "file exists", some "operation not permitted"],
              callLog := [] } addr0 6443).1).callLog = 1 ∧
    (NewIPVSLB scriptClient none
        { script := [some "file exists", some "operation not permitted"],
          callLog := [] } addr0 6443).2 =
      .error "error re-creating IPVS service: operation not permitted" := by
  constructor
  · decide
  · decide

/-- C1 amended: if the first `CreateService` fails with an error whose
text contains "file exists", the component attempts to remove the stale
descriptor; if that removal fails, it returns an error without retrying
creation, and if the removal succeeds it retries creation exactly once
(two `CreateService` calls in total), returning a ready handle if and
only if the retry succeeds.  If the first `CreateService` fails with any
other error, it returns an error immediately after that single call,
with no removal and no retry. -/
theorem C1_amended_recovery (e : String) (r2 r3 : Option String)
    (rest : List (Option String)) (address : ParsedIP) (port : Int) :
    (strContains e "file exists" = false →
      NewIPVSLB scriptClient none
          { script := some e :: r2 :: r3 :: rest, callLog := [] }
          address port =
        ({ script := r2 :: r3 :: rest,
           callLog := [.createService (mkService address port)] },
         .error ("error creating IPVS service: " ++ e))) ∧
    (strContains e "file exists" = true →
      (∀ e2, r2 = some e2 →
        NewIPVSLB scriptClient none
            { script := some e :: r2 :: r3 :: rest, callLog := [] }
            address port =
          ({ script := r3 :: rest,
             callLog := [.createService (mkService address port),
                         .removeService (mkService address port)] },
           .error ("error re-creating IPVS service: " ++ e2))) ∧
      (r2 = none →
        countCreateService
            ((NewIPVSLB scriptClient none
                { script := some e :: r2 :: r3 :: rest, callLog := [] }
                address port).1).callLog = 2 ∧
        (∀ e3, r3 = some e3 →
          (NewIPVSLB scriptClient none
              { script := some e :: r2 :: r3 :: rest, callLog := [] }
              address port).2 =
            .error ("error re-creating IPVS service: " ++ e3)) ∧
        (r3 = none →
          (NewIPVSLB scriptClient none
              { script := some e :: r2 :: r3 :: rest, callLog := [] }
              address port).2 =
            .ok { loadBalancerService := mkService address port,
                  Port := port }))) := by
  refine ⟨fun hno => ?_, fun hyes => ⟨fun e2 hr2 => ?_, fun hr2 => ?_⟩⟩
  · simp [NewIPVSLB, scriptClient, scriptStep, hno]
  · subst hr2
    simp [NewIPVSLB, scriptClient, scriptStep, hyes]
  · subst hr2
    refine ⟨?_, fun e3 hr3 => ?_, fun hr3 => ?_⟩
    · cases r3 <;>
        simp [NewIPVSLB, scriptClient, scriptStep, hyes, countCreateService]
    · subst hr3
      simp [NewIPVSLB, scriptClient, scriptStep, hyes]
    · subst hr3
      simp [NewIPVSLB, scriptClient, scriptStep, hyes]

/-- C1 witness: a script where the stale descriptor exists and both the
removal and the retried creation succeed — two `CreateService` calls and
a ready handle. -/
theorem C1_witness :
    countCreateService
        ((NewIPVSLB scriptClient none
            { script := [some "file exists", none, none], callLog := [] }
            addr0 6443).1).callLog = 2 ∧
    (NewIPVSLB scriptClient none
        { script := [some "file exists", none, none], callLog := [] }
        addr0 6443).2 =
      .ok { loadBalancerService := mkService addr0 6443, Port := 6443 } := by
  have h :=
    ((C1_amended_recovery "file exists" none none [] addr0 6443).2
      (by decide)).2 rfl
  exact ⟨h.1, h.2.2 rfl⟩

/-- C2: after `Create(address, port)` returns successfully — including
via the remove-and-retry recovery path triggered by a stale pre-existing
descriptor (the theorem quantifies over every initial table, stale entry
or not) — the forwarding table contains exactly one service descriptor
for that (family, protocol, address, port) tuple, and that service has
zero backends. -/
theorem C2_create_exactly_one_service (st : KernelState)
    (address : ParsedIP) (port : Int) :
    (NewIPVSLB kernelClient none st address port).2 =
      .ok { loadBalancerService := mkService address port, Port := port } ∧
    ((NewIPVSLB kernelClient none st address port).1).filter
        (entryMatches (mkService address port)) =
      [(mkService address port, [])] := by
  rw [newIPVSLB_kernel]
  refine ⟨rfl, ?_⟩
  rw [List.filter_append,
    any_eq_false_filter_eq_nil _ _ (any_filter_not_eq_false _ st)]
  simp [entryMatches_self]

/-- C4: removing a backend that is not registered (never added, or
already removed) surfaces the "not found" failure of `RemoveDestination`
as an error to the caller — wrapped in the `RemoveBackend` context, not
swallowed — and leaves the table unchanged. -/
theorem C4_remove_missing_is_error (st : KernelState) (lb : IPVSLoadBalancer)
    (address : ParsedIP) (port : Int)
    (h : hasDest st lb.loadBalancerService (mkRemoveDest address port) = false) :
    RemoveBackend kernelClient st lb address port =
      (st, .error ("error removing backend: " ++ "no such file or directory")) :=
  removeBackend_kernel_absent st lb address port h

/-- C4 witness: on a table holding only the freshly created service,
removing the never-added backend `10.0.0.10:6443` errors and changes
nothing. -/
theorem C4_witness :
    RemoveBackend kernelClient [(svc0, [])] lb0 bk1 6443 =
      ([(svc0, [])],
       .error ("error removing backend: " ++ "no such file or directory")) :=
  C4_remove_missing_is_error [(svc0, [])] lb0 bk1 6443 (by decide)

/-- C6 counterexample: `Create` called with the parseable IPv6 address
`::1` builds a service descriptor whose family is `INET` (IPv4), not the
input's family `INET6` — the source hardcodes `Family: ipvs.INET`. -/
theorem C6_counterexample :
    (mkService (some ip6sample) 443).family ≠ ip6sample.family := by decide

/-- C6 amended: `Create` accepts every parseable address, IPv4 or IPv6,
but the service descriptor (and likewise the backend descriptors built
by `AddBackend`/`RemoveBackend`) always carries address family `INET`
(IPv4), regardless of the input address's family. -/
theorem C6_amended_family_hardcoded_inet (address : ParsedIP) (port : Int) :
    (mkService address port).family = .inet ∧
    (mkAddDest address port).family = .inet ∧
    (mkRemoveDest address port).family = .inet ∧
    (NewIPVSLB kernelClient none [] address port).2 =
      .ok { loadBalancerService := mkService address port, Port := port } := by
  refine ⟨rfl, rfl, rfl, ?_⟩
  rw [newIPVSLB_kernel]

/-- C7: every successfully created service descriptor has protocol TCP
and round-robin scheduling (`"rr"`), whatever client behavior led to
success — the caller supplies only address and port — and the backend
descriptor built by `AddBackend` always has weight 1 and the
local-delivery forwarding method. -/
theorem C7_fixed_parameters {σ : Type} (c : IpvsClient σ) (ne : Option String)
    (st : σ) (address : ParsedIP) (port : Int) (lb : IPVSLoadBalancer)
    (h : (NewIPVSLB c ne st address port).2 = .ok lb) :
    lb.loadBalancerService.protocol = .tcp ∧
    lb.loadBalancerService.scheduler = ROUNDROBIN ∧
    (mkAddDest address port).weight = 1 ∧
    (mkAddDest address port).fwdMethod = .localDelivery := by
  cases newIPVSLB_ok_handle c ne st address port lb h
  exact ⟨rfl, rfl, rfl, rfl⟩

/-- C7 witness: instantiated on a fresh kernel table at `10.0.0.1:6443`. -/
theorem C7_witness :
    lb0.loadBalancerService.protocol = .tcp ∧
    lb0.loadBalancerService.scheduler = ROUNDROBIN ∧
    (mkAddDest addr0 6443).weight = 1 ∧
    (mkAddDest addr0 6443).fwdMethod = .localDelivery :=
  C7_fixed_parameters kernelClient none ([] : KernelState) addr0 6443 lb0
    (by rw [newIPVSLB_kernel]; rfl)

/-- C9: every descriptor carries `uint16(port)`, i.e. the port argument
modulo 2^16; no operation validates the 1–65535 range, so the
out-of-range port 65616 is silently truncated to 80 (and -1 to 65535)
while construction still succeeds. -/
theorem C9_port_truncated_not_validated (address : ParsedIP) (port : Int) :
    (mkService address port).port = (port % 65536).toNat ∧
    (mkAddDest address port).port = (port % 65536).toNat ∧
    (mkRemoveDest address port).port = (port % 65536).toNat ∧
    (NewIPVSLB kernelClient none [] address 65616).2 =
      .ok { loadBalancerService := mkService address 65616, Port := 65616 } ∧
    (mkService address 65616).port = 80 ∧
    (mkService address (-1)).port = 65535 := by
  refine ⟨rfl, rfl, rfl, ?_, ?_, ?_⟩
  · rw [newIPVSLB_kernel]
  · show uint16 65616 = 80
    decide
  · show uint16 (-1) = 65535
    decide

/-- C10: the backend descriptor `RemoveBackend` hands to
`RemoveDestination` agrees with the one `AddBackend` hands to
`CreateDestination` on address, port, family and weight, but carries the
zero forwarding method (masquerade) instead of the local-delivery method
set at add time; the two descriptors share their (address, port)
identification key. -/
theorem C10_remove_uses_key_fields_only (address : ParsedIP) (port : Int) :
    (mkRemoveDest address port).address = (mkAddDest address port).address ∧
    (mkRemoveDest address port).port = (mkAddDest address port).port ∧
    (mkRemoveDest address port).family = (mkAddDest address port).family ∧
    (mkRemoveDest address port).weight = (mkAddDest address port).weight ∧
    (mkRemoveDest address port).fwdMethod = ForwardType.zero ∧
    (mkAddDest address port).fwdMethod = .localDelivery ∧
    ForwardType.zero ≠ ForwardType.localDelivery ∧
    destKey (mkRemoveDest address port) = destKey (mkAddDest address port) :=
  ⟨rfl, rfl, rfl, rfl, rfl, rfl, by decide, rfl⟩

/-- C3: `AddBackend` succeeds both when `CreateDestination` succeeds and
when it fails with an error containing "file exists" (a duplicate add is
swallowed); any other `CreateDestination` failure is returned to the
caller.  Under the forwarding-table model, two successive `AddBackend`
calls for the same (address, port) both succeed and leave exactly one
backend entry for that pair. -/
theorem C3_add_idempotent :
    (∀ (rest : List (Option String)) (lb : IPVSLoadBalancer)
        (address : ParsedIP) (port : Int),
       (AddBackend scriptClient { script := none :: rest, callLog := [] }
           lb address port).2 = .ok ()) ∧
    (∀ (e : String) (rest : List (Option String)) (lb : IPVSLoadBalancer)
        (address : ParsedIP) (port : Int),
       (strContains e "file exists" = true →
         (AddBackend scriptClient { script := some e :: rest, callLog := [] }
             lb address port).2 = .ok ()) ∧
       (strContains e "file exists" = false →
         (AddBackend scriptClient { script := some e :: rest, callLog := [] }
             lb address port).2 =
           .error ("error creating backend: " ++ e))) ∧
    (∀ (st : KernelState) (lb : IPVSLoadBalancer) (address : ParsedIP)
        (port : Int) (entry : Service × List Destination),
       st.find? (entryMatches lb.loadBalancerService) = some entry →
       entry.2.countP (destMatches (mkAddDest address port)) ≤ 1 →
       (AddBackend kernelClient st lb address port).2 = .ok () ∧
       (AddBackend kernelClient
           (AddBackend kernelClient st lb address port).1
           lb address port).2 = .ok () ∧
       ∃ ds,
         ((AddBackend kernelClient
             (AddBackend kernelClient st lb address port).1
             lb address port).1).find?
             (entryMatches lb.loadBalancerService) = some (entry.1, ds) ∧
         ds.countP (destMatches (mkAddDest address port)) = 1) := by
  refine ⟨?_, ?_, ?_⟩
  · intro rest lb address port
    simp [AddBackend, scriptClient, scriptStep]
  · intro e rest lb address port
    constructor
    · intro hyes
      simp [AddBackend, scriptClient, scriptStep, hyes]
    · intro hno
      simp [AddBackend, scriptClient, scriptStep, hno]
  · intro st lb address port entry hfind hcount
    by_cases hd : entry.2.any (destMatches (mkAddDest address port))
    · have h1 := addBackend_kernel_present st lb address port entry hfind hd
      refine ⟨by rw [h1], ?_, ?_⟩
      · rw [h1]
        show (AddBackend kernelClient st lb address port).2 = .ok ()
        rw [h1]
      · refine ⟨entry.2, ?_, ?_⟩
        · rw [h1]
          show (AddBackend kernelClient st lb address port).1.find?
              (entryMatches lb.loadBalancerService) = some (entry.1, entry.2)
          rw [h1]
          exact hfind
        · exact countP_eq_one_of_any_of_le_one _ _ hd hcount
    · rw [Bool.not_eq_true] at hd
      have h1 := addBackend_kernel_absent st lb address port entry hfind hd
      have hfind1 :
          (setDests st lb.loadBalancerService
              (entry.2 ++ [mkAddDest address port])).find?
            (entryMatches lb.loadBalancerService) =
          some (entry.1, entry.2 ++ [mkAddDest address port]) := by
        rw [find?_setDests, hfind]
        rfl
      have hd1 :
          (entry.2 ++ [mkAddDest address port]).any
            (destMatches (mkAddDest address port)) = true := by
        rw [List.any_append]
        simp [destMatches_self]
      have h2 := addBackend_kernel_present _ lb address port _ hfind1 hd1
      refine ⟨by rw [h1], ?_, ?_⟩
      · rw [h1]
        show (AddBackend kernelClient
            (setDests st lb.loadBalancerService
              (entry.2 ++ [mkAddDest address port]))
            lb address port).2 = .ok ()
        rw [h2]
      · refine ⟨entry.2 ++ [mkAddDest address port], ?_, ?_⟩
        · rw [h1]
          show (AddBackend kernelClient
              (setDests st lb.loadBalancerService
                (entry.2 ++ [mkAddDest address port]))
              lb address port).1.find?
              (entryMatches lb.loadBalancerService) =
            some (entry.1, entry.2 ++ [mkAddDest address port])
          rw [h2]
          exact hfind1
        · rw [List.countP_append,
            countP_eq_zero_of_any_eq_false _ _ hd]
          simp [destMatches_self]

/-- C3 witness: two successive adds of backend `10.0.0.10:6443` on the
freshly created service both succeed and leave one entry. -/
theorem C3_witness :
    (AddBackend kernelClient [(svc0, [])] lb0 bk1 6443).2 = .ok () ∧
    (AddBackend kernelClient
        (AddBackend kernelClient [(svc0, [])] lb0 bk1 6443).1
        lb0 bk1 6443).2 = .ok () ∧
    ∃ ds,
      ((AddBackend kernelClient
          (AddBackend kernelClient [(svc0, [])] lb0 bk1 6443).1
          lb0 bk1 6443).1).find? (entryMatches lb0.loadBalancerService) =
        some (svc0, ds) ∧
      ds.countP (destMatches (mkAddDest bk1 6443)) = 1 :=
  C3_add_idempotent.2.2 [(svc0, [])] lb0 bk1 6443 (svc0, [])
    (by decide) (by decide)

/-- C5: on a constructed service, `AddBackend(A, P)` followed by
`RemoveBackend(A, P)` both succeed and leave the backend set without an
entry for (A, P); a subsequent `RemoveBackend(A, P)` then returns the
not-found error and changes nothing. -/
theorem C5_add_remove_round_trip (st : KernelState) (lb : IPVSLoadBalancer)
    (address : ParsedIP) (port : Int) (entry : Service × List Destination)
    (hfind : st.find? (entryMatches lb.loadBalancerService) = some entry) :
    (AddBackend kernelClient st lb address port).2 = .ok () ∧
    (RemoveBackend kernelClient
        (AddBackend kernelClient st lb address port).1
        lb address port).2 = .ok () ∧
    hasDest
        (RemoveBackend kernelClient
            (AddBackend kernelClient st lb address port).1
            lb address port).1
        lb.loadBalancerService (mkRemoveDest address port) = false ∧
    RemoveBackend kernelClient
        (RemoveBackend kernelClient
            (AddBackend kernelClient st lb address port).1
            lb address port).1
        lb address port =
      ((RemoveBackend kernelClient
          (AddBackend kernelClient st lb address port).1
          lb address port).1,
       .error ("error removing backend: " ++ "no such file or directory")) := by
  by_cases hd : entry.2.any (destMatches (mkAddDest address port))
  · have h1 := addBackend_kernel_present st lb address port entry hfind hd
    have hdr : entry.2.any (destMatches (mkRemoveDest address port)) = true :=
      hd
    have h2 := removeBackend_kernel_present st lb address port entry hfind hdr
    have hfind2 :
        (setDests st lb.loadBalancerService
            (entry.2.filter
              (fun d0 => !destMatches (mkRemoveDest address port) d0))).find?
          (entryMatches lb.loadBalancerService) =
        some (entry.1,
          entry.2.filter
            (fun d0 => !destMatches (mkRemoveDest address port) d0)) := by
      rw [find?_setDests, hfind]
      rfl
    have hgone :
        hasDest
          (setDests st lb.loadBalancerService
            (entry.2.filter
              (fun d0 => !destMatches (mkRemoveDest address port) d0)))
          lb.loadBalancerService (mkRemoveDest address port) = false := by
      unfold hasDest
      rw [hfind2]
      exact any_filter_not_eq_false _ entry.2
    refine ⟨by rw [h1], ?_, ?_, ?_⟩
    · rw [h1]
      show (RemoveBackend kernelClient st lb address port).2 = .ok ()
      rw [h2]
    · rw [h1]
      show hasDest (RemoveBackend kernelClient st lb address port).1
          lb.loadBalancerService (mkRemoveDest address port) = false
      rw [h2]
      exact hgone
    · rw [h1]
      show RemoveBackend kernelClient
          (RemoveBackend kernelClient st lb address port).1 lb address port =
        ((RemoveBackend kernelClient st lb address port).1,
         .error ("error removing backend: " ++ "no such file or directory"))
      rw [h2]
      exact removeBackend_kernel_absent _ lb address port hgone
  · rw [Bool.not_eq_true] at hd
    have h1 := addBackend_kernel_absent st lb address port entry hfind hd
    have hfind1 :
        (setDests st lb.loadBalancerService
            (entry.2 ++ [mkAddDest address port])).find?
          (entryMatches lb.loadBalancerService) =
        some (entry.1, entry.2 ++ [mkAddDest address port]) := by
      rw [find?_setDests, hfind]
      rfl
    have hdr :
        (entry.2 ++ [mkAddDest address port]).any
          (destMatches (mkRemoveDest address port)) = true := by
      rw [List.any_append]
      have : destMatches (mkRemoveDest address port)
          (mkAddDest address port) = true := by
        simp [destMatches, destKey_remove_eq_add]
      simp [this]
    have h2 := removeBackend_kernel_present _ lb address port _ hfind1 hdr
    have hfind2 :
        (setDests
            (setDests st lb.loadBalancerService
              (entry.2 ++ [mkAddDest address port]))
            lb.loadBalancerService
            ((entry.2 ++ [mkAddDest address port]).filter
              (fun d0 => !destMatches (mkRemoveDest address port) d0))).find?
          (entryMatches lb.loadBalancerService) =
        some (entry.1,
          (entry.2 ++ [mkAddDest address port]).filter
            (fun d0 => !destMatches (mkRemoveDest address port) d0)) := by
      rw [find?_setDests, hfind1]
      rfl
    have hgone :
        hasDest
          (setDests
            (setDests st lb.loadBalancerService
              (entry.2 ++ [mkAddDest address port]))
            lb.loadBalancerService
            ((entry.2 ++ [mkAddDest address port]).filter
              (fun d0 => !destMatches (mkRemoveDest address port) d0)))
          lb.loadBalancerService (mkRemoveDest address port) = false := by
      unfold hasDest
      rw [hfind2]
      exact any_filter_not_eq_false _ _
    refine ⟨by rw [h1], ?_, ?_, ?_⟩
    · rw [h1]
      show (RemoveBackend kernelClient
          (setDests st lb.loadBalancerService
            (entry.2 ++ [mkAddDest address port]))
          lb address port).2 = .ok ()
      rw [h2]
    · rw [h1]
      show hasDest
          (RemoveBackend kernelClient
            (setDests st lb.loadBalancerService
              (entry.2 ++ [mkAddDest address port]))
            lb address port).1
          lb.loadBalancerService (mkRemoveDest address port) = false
      rw [h2]
      exact hgone
    · rw [h1]
      show RemoveBackend kernelClient
          (RemoveBackend kernelClient
            (setDests st lb.loadBalancerService
              (entry.2 ++ [mkAddDest address port]))
            lb address port).1 lb address port =
        ((RemoveBackend kernelClient
            (setDests st lb.loadBalancerService
              (entry.2 ++ [mkAddDest address port]))
            lb address port).1,
         .error ("error removing backend: " ++ "no such file or directory"))
      rw [h2]
      exact removeBackend_kernel_absent _ lb address port hgone

/-- C5 witness: add then remove backend `10.0.0.10:6443` on the fresh
service; the second remove fails with the not-found error. -/
theorem C5_witness :
    (AddBackend kernelClient [(svc0, [])] lb0 bk1 6443).2 = .ok () ∧
    (RemoveBackend kernelClient
        (AddBackend kernelClient [(svc0, [])] lb0 bk1 6443).1
        lb0 bk1 6443).2 = .ok () ∧
    hasDest
        (RemoveBackend kernelClient
            (AddBackend kernelClient [(svc0, [])] lb0 bk1 6443).1
            lb0 bk1 6443).1
        lb0.loadBalancerService (mkRemoveDest bk1 6443) = false ∧
    RemoveBackend kernelClient
        (RemoveBackend kernelClient
            (AddBackend kernelClient [(svc0, [])] lb0 bk1 6443).1
            lb0 bk1 6443).1
        lb0 bk1 6443 =
      ((RemoveBackend kernelClient
          (AddBackend kernelClient [(svc0, [])] lb0 bk1 6443).1
          lb0 bk1 6443).1,
       .error ("error removing backend: " ++ "no such file or directory")) :=
  C5_add_remove_round_trip [(svc0, [])] lb0 bk1 6443 (svc0, []) (by decide)

/-- C8: for every input — any client behavior, any port, and any address
including the unparseable case (`net.ParseIP` = nil, the `none` value,
for which `ipvs.NewIP` yields the zero address without panicking) — each
of the four operations terminates with a value (all embedded functions
are total), and that value is either success or an error wrapped with
the context of the failed operation; no other outcome exists. -/
theorem C8_no_panic_errors_reported {σ : Type} (c : IpvsClient σ)
    (ne : Option String) (st : σ) (address : ParsedIP) (port : Int)
    (lb : IPVSLoadBalancer) :
    ((∃ h, (NewIPVSLB c ne st address port).2 = .ok h) ∨
     (∃ e, (NewIPVSLB c ne st address port).2 =
        .error ("error creating IPVS client: " ++ e)) ∨
     (∃ e, (NewIPVSLB c ne st address port).2 =
        .error ("error creating IPVS service: " ++ e)) ∨
     (∃ e, (NewIPVSLB c ne st address port).2 =
        .error ("error re-creating IPVS service: " ++ e))) ∧
    ((RemoveIPVSLB c st lb).2 = .ok () ∨
     (∃ e, (RemoveIPVSLB c st lb).2 =
        .error ("error removing existing IPVS service: " ++ e))) ∧
    ((AddBackend c st lb address port).2 = .ok () ∨
     (∃ e, (AddBackend c st lb address port).2 =
        .error ("error creating backend: " ++ e))) ∧
    ((RemoveBackend c st lb address port).2 = .ok () ∨
     (∃ e, (RemoveBackend c st lb address port).2 =
        .error ("error removing backend: " ++ e))) := by
  refine ⟨?_, ?_, ?_, ?_⟩
  · simp only [NewIPVSLB]
    cases ne with
    | some e => exact .inr (.inl ⟨e, rfl⟩)
    | none =>
      cases h1 : (c.createService st (mkService address port)).2 with
      | none =>
        simp only [h1]
        exact .inl ⟨_, rfl⟩
      | some e =>
        simp only [h1]
        by_cases hc : strContains e "file exists" = true
        · simp only [hc, if_true]
          cases h2 : (c.removeService
              (c.createService st (mkService address port)).1
              (mkService address port)).2 with
          | some e2 =>
            simp only [h2]
            exact .inr (.inr (.inr ⟨e2, rfl⟩))
          | none =>
            simp only [h2]
            cases h3 : (c.createService
                (c.removeService
                  (c.createService st (mkService address port)).1
                  (mkService address port)).1
                (mkService address port)).2 with
            | some e3 =>
              simp only [h3]
              exact .inr (.inr (.inr ⟨e3, rfl⟩))
            | none =>
              simp only [h3]
              exact .inl ⟨_, rfl⟩
        · simp only [hc, if_false]
          exact .inr (.inr (.inl ⟨e, rfl⟩))
  · simp only [RemoveIPVSLB]
    cases h : (c.removeService st lb.loadBalancerService).2 with
    | some e =>
      simp only [h]
      exact .inr ⟨e, rfl⟩
    | none =>
      simp only [h]
      exact .inl trivial
  · simp only [AddBackend]
    cases h : (c.createDestination st lb.loadBalancerService
        (mkAddDest address port)).2 with
    | some e =>
      simp only [h]
      by_cases hc : strContains e "file exists" = true
      · simp only [hc, if_true]
        exact .inl trivial
      · simp only [hc, if_false]
        exact .inr ⟨e, rfl⟩
    | none =>
      simp only [h]
      exact .inl trivial
  · simp only [RemoveBackend]
    cases h : (c.removeDestination st lb.loadBalancerService
        (mkRemoveDest address port)).2 with
    | some e =>
      simp only [h]
      exact .inr ⟨e, rfl⟩
    | none =>
      simp only [h]
      exact .inl trivial

end KubeVip
